import Mathlib

/-!
Shallow embedding of `neural_painters/vae_painter.py` (VAE neural painter):
the training schedules, the global step counter, the per-step cadence events,
the checkpoint store, the KL loss, the two-phase training step and the
inference wrapper, together with theorems about them.
-/

namespace VAEPainter

/-! ### Schedules (pure functions of the global step, lines 241-245 and 276-285) -/

/-- Line 241: `if batch_idx < vae_train_steps` selects the first (VAE) part,
otherwise the second (predictor) part. -/
inductive Phase where
  | phase1 : Phase
  | phase2 : Phase
deriving DecidableEq, Repr

/-- Phase selection, from line 241: `if batch_idx < vae_train_steps`. -/
def phase_of (vae_train_steps batch_idx : ℤ) : Phase :=
  if batch_idx < vae_train_steps then Phase.phase1 else Phase.phase2

/-- Mask multiplier of the first part, lines 242-245:
`if batch_idx > 10000: mask_mult = 1. else: mask_mult = 10.` -/
def mask_mult (batch_idx : ℤ) : ℚ :=
  if batch_idx > 10000 then 1 else 10

/-- Learning rate written into every param group of optimizer2 in the second
part, lines 277-285: `0.01` below `vae_train_steps + 20000`, `0.001` below
`vae_train_steps + 80000`, `0.0001` otherwise. -/
def optimizer2_lr (vae_train_steps batch_idx : ℤ) : ℚ :=
  if batch_idx < vae_train_steps + 20000 then 0.01
  else if batch_idx < vae_train_steps + 80000 then 0.001
  else 0.0001

/-! ### Global step counter across passes (lines 237-239 and 318)

The loop is `for _ in range(100): for batch_idx, batch in enumerate(loader):
batch_idx += batch_idx_offset; ...` and after each pass
`batch_idx_offset = batch_idx + 1`, where the last local index of a pass over
a dataset of `D` batches is `D - 1`. -/

/-- Value of `batch_idx_offset` at the start of pass `p` (0-indexed), for a
dataset of `D` batches per pass: line 318 sets the next offset to the last
global `batch_idx` of the pass plus one. -/
def pass_offset (offset0 : ℤ) (D : ℕ) : ℕ → ℤ
  | 0 => offset0
  | p + 1 => (pass_offset offset0 D p + ((D : ℤ) - 1)) + 1

/-- Global step of local batch `i` in pass `p`: line 239,
`batch_idx += batch_idx_offset`. -/
def global_step (offset0 : ℤ) (D : ℕ) (p i : ℕ) : ℤ :=
  pass_offset offset0 D p + (i : ℤ)

/-! ### Cadence events of one loop iteration (lines 260-273, 300-316) -/

/-- Observable logging/persistence actions of one loop iteration. -/
inductive Event where
  | scalar (tag : String) : Event
  | images (tag : String) : Event
  | progressLine : Event
  | checkpointSave : Event
deriving DecidableEq, Repr

/-- Events emitted by the loop body at global step `batch_idx`, in source
order.  The first part (lines 260-273) writes four scalars every step, images
on the tensorboard cadence (the mask image only when the reconstruction loss
returned one, `mask_present`), and a progress line on the log cadence; the
second part (lines 300-311) writes three scalars, images and a progress line
on the same cadences; both parts fall through to the checkpoint save on the
save cadence (lines 313-316). -/
def step_events (vae_train_steps tensorboard_every_n log_every_n save_every_n : ℤ)
    (mask_present : Bool) (batch_idx : ℤ) : List Event :=
  (if batch_idx < vae_train_steps then
    [Event.scalar "loss", Event.scalar "kl_loss", Event.scalar "mse_loss",
     Event.scalar "mask_mult"]
    ++ (if batch_idx % tensorboard_every_n = 0 then
          [Event.images "img_in", Event.images "img_out"]
          ++ (if mask_present then [Event.images "img_mask"] else [])
        else [])
    ++ (if batch_idx % log_every_n = 0 then [Event.progressLine] else [])
  else
    [Event.scalar "loss2", Event.scalar "mu_mse", Event.scalar "log_var_mse"]
    ++ (if batch_idx % tensorboard_every_n = 0 then
          [Event.images "img_in", Event.images "img_out"] else [])
    ++ (if batch_idx % log_every_n = 0 then [Event.progressLine] else []))
  ++ (if batch_idx % save_every_n = 0 then [Event.checkpointSave] else [])

/-! ### Checkpoint store (lines 142-182)

Files are modelled as a map from path strings to stored checkpoint objects;
the five state bundles are opaque type parameters. -/

/-- The five mutable state bundles the checkpoint functions receive. -/
structure StateBundles (E D P O1 O2 : Type) where
  encoder : E
  decoder : D
  predictor : P
  optimizer1 : O1
  optimizer2 : O2
deriving DecidableEq, Repr

/-- The dictionary written by `torch.save` (lines 151-158). -/
structure Checkpoint (E D P O1 O2 : Type) where
  batch_idx : ℤ
  encoder_state_dict : E
  decoder_state_dict : D
  predictor_state_dict : P
  optimizer1_state_dict : O1
  optimizer2_state_dict : O2
deriving DecidableEq, Repr

/-- The filesystem, as seen through `os.path.exists` / `torch.load` /
`torch.save`. -/
def FileStore (E D P O1 O2 : Type) : Type :=
  String → Option (Checkpoint E D P O1 O2)

/-- `os.path.join(savedir, '{}_{}.tar'.format(name, batch_idx))` (line 159). -/
def numbered_path (savedir name : String) (batch_idx : ℤ) : String :=
  savedir ++ "/" ++ name ++ "_" ++ toString batch_idx ++ ".tar"

/-- `os.path.join(savedir, '{}_latest.tar'.format(name))` (lines 160, 171). -/
def latest_path (savedir name : String) : String :=
  savedir ++ "/" ++ name ++ "_latest.tar"

/-- `save_train_checkpoint` (lines 142-161): writes the same object to the
numbered file and to the latest file. -/
def save_train_checkpoint {E D P O1 O2 : Type} (store : FileStore E D P O1 O2)
    (savedir name : String) (batch_idx : ℤ)
    (s : StateBundles E D P O1 O2) : FileStore E D P O1 O2 :=
  fun f =>
    if f = numbered_path savedir name batch_idx ∨ f = latest_path savedir name then
      some { batch_idx := batch_idx
             encoder_state_dict := s.encoder
             decoder_state_dict := s.decoder
             predictor_state_dict := s.predictor
             optimizer1_state_dict := s.optimizer1
             optimizer2_state_dict := s.optimizer2 }
    else store f

/-- `load_from_latest_checkpoint` (lines 164-182): returns `-1` and leaves the
targets unchanged when the latest file is missing, otherwise restores all five
bundles in place and returns the saved `batch_idx`. -/
def load_from_latest_checkpoint {E D P O1 O2 : Type}
    (store : FileStore E D P O1 O2) (savedir name : String)
    (s : StateBundles E D P O1 O2) : ℤ × StateBundles E D P O1 O2 :=
  match store (latest_path savedir name) with
  | none => (-1, s)
  | some c =>
    (c.batch_idx,
     { encoder := c.encoder_state_dict
       decoder := c.decoder_state_dict
       predictor := c.predictor_state_dict
       optimizer1 := c.optimizer1_state_dict
       optimizer2 := c.optimizer2_state_dict })

/-- Line 226: `batch_idx_offset = 1 + load_from_latest_checkpoint(...)`. -/
def batch_idx_offset_init {E D P O1 O2 : Type}
    (store : FileStore E D P O1 O2) (savedir name : String)
    (s : StateBundles E D P O1 O2) : ℤ :=
  1 + (load_from_latest_checkpoint store savedir name s).1

/-! ### KL loss (lines 131-139)

Tensors are modelled as lists of reals: `mu` and `logvar` are batches of
rows.  `torch.sum(..., dim=1)` is the row sum, `torch.max` with
`ones_like(KLD) * kl_tolerance * z_size` is an elementwise floor, and
`torch.mean` is sum over the batch divided by the batch size. -/

/-- Per-sample term of line 136:
`-0.5 * torch.sum(1 + logvar - mu.pow(2) - logvar.exp(), dim=1)` for one row. -/
noncomputable def kl_per_sample (mu logvar : List ℝ) : ℝ :=
  -0.5 * (List.zipWith (fun m l => 1 + l - m ^ 2 - Real.exp l) mu logvar).sum

/-- `kl_loss_function` (lines 131-139): per-sample closed-form divergence,
elementwise floor at `kl_tolerance * z_size`, then batch mean. -/
noncomputable def kl_loss_function (mu logvar : List (List ℝ))
    (kl_tolerance : ℝ) (z_size : ℕ) : ℝ :=
  let kld := List.zipWith
    (fun m l => max (kl_per_sample m l) (kl_tolerance * (z_size : ℝ))) mu logvar
  kld.sum / (kld.length : ℝ)

/-! ### The two-phase training step (lines 241-298)

The network forward passes, the losses on abstract tensors and the optimizer
updates are opaque operations; what is embedded concretely is which state each
phase reads and writes, with which schedule values.  `opt1_step` receives
exactly the data the phase-1 gradient depends on (optimizer1 state, encoder,
decoder, the batch, the mask multiplier); `opt2_step` receives exactly the
data the phase-2 gradient depends on (optimizer2 state, predictor, the
encoder targets, the actions).  Neither receives the components the source
never updates in that phase. -/

structure TorchOps (E D P O1 O2 Img Act Vec : Type) where
  encoder_forward : E → Img → Vec × Vec × Vec
  decoder_forward : D → Vec → Img
  predictor_forward : P → Act → Vec × Vec × Vec
  reconstruction_loss : Img → Img → ℚ → ℚ
  kl_loss : Vec → Vec → ℚ
  mse_loss : Vec → Vec → ℚ
  set_lr : O2 → ℚ → O2
  opt1_step : O1 → E → D → Img → ℚ → O1 × E × D
  opt2_step : O2 → P → Vec × Vec → Act → O2 × P

/-- Outcome of one loop-body iteration: the state after the step, which code
path ran, the loss, the mask multiplier handed to the reconstruction loss
(first part only), the learning rate written into optimizer2 (second part
only), and the encoder-forward outputs of the step. -/
structure StepResult (E D P O1 O2 Vec : Type) where
  bundles : StateBundles E D P O1 O2
  phase : Phase
  loss : ℚ
  mask_mult_used : Option ℚ
  lr2_set : Option ℚ
  encoder_mu : Vec
  encoder_log_var : Vec

/-- First part of the loop body (lines 241-258): pick the mask multiplier,
run encoder and decoder, form `mse + kld`, and let optimizer1 update encoder
and decoder.  Predictor and optimizer2 are untouched. -/
def phase1_step {E D P O1 O2 Img Act Vec : Type}
    (ops : TorchOps E D P O1 O2 Img Act Vec) (batch_idx : ℤ)
    (s : StateBundles E D P O1 O2) (strokes : Img) :
    StepResult E D P O1 O2 Vec :=
  let m := mask_mult batch_idx
  let e := ops.encoder_forward s.encoder strokes
  let recon := ops.decoder_forward s.decoder e.1
  let mse := ops.reconstruction_loss recon strokes m
  let kld := ops.kl_loss e.2.1 e.2.2
  let loss := mse + kld
  let upd := ops.opt1_step s.optimizer1 s.encoder s.decoder strokes m
  { bundles := { encoder := upd.2.1
                 decoder := upd.2.2
                 predictor := s.predictor
                 optimizer1 := upd.1
                 optimizer2 := s.optimizer2 }
    phase := Phase.phase1
    loss := loss
    mask_mult_used := some m
    lr2_set := none
    encoder_mu := e.2.1
    encoder_log_var := e.2.2 }

/-- Second part of the loop body (lines 275-298): write the scheduled learning
rate into optimizer2, run the encoder forward to produce the targets, run the
predictor, form `mu_mse + log_var_mse`, and let optimizer2 update the
predictor.  Encoder, decoder and optimizer1 are untouched. -/
def phase2_step {E D P O1 O2 Img Act Vec : Type}
    (ops : TorchOps E D P O1 O2 Img Act Vec) (vae_train_steps batch_idx : ℤ)
    (s : StateBundles E D P O1 O2) (strokes : Img) (actions : Act) :
    StepResult E D P O1 O2 Vec :=
  let lr := optimizer2_lr vae_train_steps batch_idx
  let o2 := ops.set_lr s.optimizer2 lr
  let e := ops.encoder_forward s.encoder strokes
  let pr := ops.predictor_forward s.predictor actions
  let mu_mse := ops.mse_loss e.2.1 pr.2.1
  let log_var_mse := ops.mse_loss e.2.2 pr.2.2
  let loss := mu_mse + log_var_mse
  let upd := ops.opt2_step o2 s.predictor (e.2.1, e.2.2) actions
  { bundles := { encoder := s.encoder
                 decoder := s.decoder
                 predictor := upd.2
                 optimizer1 := s.optimizer1
                 optimizer2 := upd.1 }
    phase := Phase.phase2
    loss := loss
    mask_mult_used := none
    lr2_set := some lr
    encoder_mu := e.2.1
    encoder_log_var := e.2.2 }

/-- One loop-body iteration (lines 241-298): line 241 dispatches on
`batch_idx < vae_train_steps`. -/
def train_step {E D P O1 O2 Img Act Vec : Type}
    (ops : TorchOps E D P O1 O2 Img Act Vec) (vae_train_steps batch_idx : ℤ)
    (s : StateBundles E D P O1 O2) (strokes : Img) (actions : Act) :
    StepResult E D P O1 O2 Vec :=
  if batch_idx < vae_train_steps then phase1_step ops batch_idx s strokes
  else phase2_step ops vae_train_steps batch_idx s strokes actions

/-! ### Inference wrapper (lines 76-88 and 117-122)

`VAEPredictor.forward` is embedded with its deterministic trunk (the three
fully connected + batch-norm layers and the two heads) abstracted as `net`,
and the reparameterization of lines 84-86 concrete:
`std = exp(0.5 * log_var)`, `z = mu + eps * std` with the noise `eps`
explicit.  `VAENeuralPainter.forward` then branches on `stochastic`. -/

/-- `VAEPredictor.forward` (lines 76-88). -/
noncomputable def vae_predictor_forward (net : List ℝ → List ℝ × List ℝ)
    (eps : List ℝ) (x : List ℝ) : List ℝ × List ℝ × List ℝ :=
  let mu := (net x).1
  let log_var := (net x).2
  let std := log_var.map (fun l => Real.exp (0.5 * l))
  let z := List.zipWith (· + ·) mu (List.zipWith (· * ·) eps std)
  (z, mu, log_var)

/-- `VAENeuralPainter.forward` (lines 117-122). -/
noncomputable def vae_neural_painter_forward {Img : Type}
    (decoder : List ℝ → Img) (net : List ℝ → List ℝ × List ℝ)
    (stochastic : Bool) (eps : List ℝ) (x : List ℝ) : Img :=
  let r := vae_predictor_forward net eps x
  if stochastic then decoder r.1 else decoder r.2.1

/-! ### Concrete instantiations used to evaluate the abstract model -/

/-- A concrete `TorchOps` instance over `ℕ` carriers. -/
def opsNat : TorchOps ℕ ℕ ℕ ℕ ℕ ℕ ℕ ℕ where
  encoder_forward := fun e i => (e + i, e * 2, i * 3)
  decoder_forward := fun d v => d + v
  predictor_forward := fun p a => (p + a, p * 5, a * 7)
  reconstruction_loss := fun r t m => (r : ℚ) + (t : ℚ) + m
  kl_loss := fun a b => (a : ℚ) + (b : ℚ)
  mse_loss := fun a b => (a : ℚ) + (b : ℚ) + 1
  set_lr := fun o _ => o + 1
  opt1_step := fun o e d _ _ => (o + 1, e + 1, d + 1)
  opt2_step := fun o p _ _ => (o + 1, p + 1)

/-- Concrete state bundles. -/
def bundles0 : StateBundles ℕ ℕ ℕ ℕ ℕ := ⟨1, 2, 3, 4, 5⟩

/-- A second set of concrete state bundles. -/
def bundles1 : StateBundles ℕ ℕ ℕ ℕ ℕ := ⟨11, 12, 13, 14, 15⟩

/-- A filesystem holding no checkpoint at all. -/
def emptyStore : FileStore ℕ ℕ ℕ ℕ ℕ := fun _ => none

end VAEPainter

namespace VAEPainter

/-! ## Theorems -/

/-- C1: phase and phase-2 learning rate are pure functions of the global step:
`batch_idx < N` runs the phase-1 path, `batch_idx ≥ N` runs the phase-2 path
and writes learning rate `0.01` into optimizer2 for steps `N` through
`N + 19999`, `0.001` for `N + 20000` through `N + 79999`, and `0.0001` from
`N + 80000` on. -/
theorem phase_selection_and_lr_staircase {E D P O1 O2 Img Act Vec : Type}
    (ops : TorchOps E D P O1 O2 Img Act Vec) (N b : ℤ)
    (s : StateBundles E D P O1 O2) (strokes : Img) (actions : Act) :
    (b < N → (train_step ops N b s strokes actions).phase = Phase.phase1) ∧
    (N ≤ b →
      (train_step ops N b s strokes actions).phase = Phase.phase2 ∧
      (train_step ops N b s strokes actions).lr2_set = some (optimizer2_lr N b) ∧
      (b ≤ N + 19999 → optimizer2_lr N b = 0.01) ∧
      (N + 20000 ≤ b → b ≤ N + 79999 → optimizer2_lr N b = 0.001) ∧
      (N + 80000 ≤ b → optimizer2_lr N b = 0.0001)) := by
  constructor
  · intro h
    simp [train_step, if_pos h, phase1_step]
  · intro h
    have hnl : ¬b < N := not_lt.mpr h
    refine ⟨?_, ?_, ?_, ?_, ?_⟩
    · simp [train_step, if_neg hnl, phase2_step]
    · simp [train_step, if_neg hnl, phase2_step]
    · intro h1
      unfold optimizer2_lr
      rw [if_pos (by omega)]
    · intro h1 h2
      unfold optimizer2_lr
      rw [if_neg (by omega), if_pos (by omega)]
    · intro h1
      unfold optimizer2_lr
      rw [if_neg (by omega), if_neg (by omega)]

/-- Witness for C1 at `N = 300000` and the exact boundary steps. -/
theorem phase_selection_and_lr_staircase_witness :
    (train_step opsNat 300000 299999 bundles0 7 8).phase = Phase.phase1 ∧
    (train_step opsNat 300000 300000 bundles0 7 8).phase = Phase.phase2 ∧
    optimizer2_lr 300000 300000 = 0.01 ∧
    optimizer2_lr 300000 319999 = 0.01 ∧
    optimizer2_lr 300000 320000 = 0.001 ∧
    optimizer2_lr 300000 379999 = 0.001 ∧
    optimizer2_lr 300000 380000 = 0.0001 :=
  ⟨(phase_selection_and_lr_staircase opsNat 300000 299999 bundles0 7 8).1 (by norm_num),
   ((phase_selection_and_lr_staircase opsNat 300000 300000 bundles0 7 8).2 (by norm_num)).1,
   ((phase_selection_and_lr_staircase opsNat 300000 300000 bundles0 7 8).2
      (by norm_num)).2.2.1 (by norm_num),
   ((phase_selection_and_lr_staircase opsNat 300000 319999 bundles0 7 8).2
      (by norm_num)).2.2.1 (by norm_num),
   ((phase_selection_and_lr_staircase opsNat 300000 320000 bundles0 7 8).2
      (by norm_num)).2.2.2.1 (by norm_num) (by norm_num),
   ((phase_selection_and_lr_staircase opsNat 300000 379999 bundles0 7 8).2
      (by norm_num)).2.2.2.1 (by norm_num) (by norm_num),
   ((phase_selection_and_lr_staircase opsNat 300000 380000 bundles0 7 8).2
      (by norm_num)).2.2.2.2 (by norm_num)⟩

/-- C3: the phase-1 mask multiplier is a pure function of the global step,
equal to `10` for every step `≤ 10000` and to `1` for every step `> 10000`;
that multiplier is what the phase-1 path hands to the reconstruction loss. -/
theorem mask_mult_hard_threshold {E D P O1 O2 Img Act Vec : Type}
    (ops : TorchOps E D P O1 O2 Img Act Vec) (N b : ℤ)
    (s : StateBundles E D P O1 O2) (strokes : Img) (actions : Act) :
    (b ≤ 10000 → mask_mult b = 10) ∧
    (10000 < b → mask_mult b = 1) ∧
    (b < N →
      (train_step ops N b s strokes actions).mask_mult_used = some (mask_mult b)) := by
  refine ⟨?_, ?_, ?_⟩
  · intro h
    unfold mask_mult
    rw [if_neg (by omega)]
  · intro h
    unfold mask_mult
    rw [if_pos h]
  · intro h
    simp [train_step, if_pos h, phase1_step]

/-- Witness for C3 at the boundary steps 10000 and 10001. -/
theorem mask_mult_hard_threshold_witness :
    mask_mult 10000 = 10 ∧ mask_mult 10001 = 1 ∧
    (train_step opsNat 300000 5 bundles0 7 8).mask_mult_used = some (mask_mult 5) :=
  ⟨(mask_mult_hard_threshold opsNat 300000 10000 bundles0 7 8).1 (by norm_num),
   (mask_mult_hard_threshold opsNat 300000 10001 bundles0 7 8).2.1 (by norm_num),
   (mask_mult_hard_threshold opsNat 300000 5 bundles0 7 8).2.2 (by norm_num)⟩

/-- C4: saving a checkpoint at step `S` and then loading the latest checkpoint
from the same directory and name returns `S` and restores all five state
bundles exactly as saved, whatever the targets held before the load. -/
theorem checkpoint_roundtrip {E D P O1 O2 : Type} (store : FileStore E D P O1 O2)
    (savedir name : String) (S : ℤ) (s s0 : StateBundles E D P O1 O2) :
    load_from_latest_checkpoint (save_train_checkpoint store savedir name S s)
      savedir name s0 = (S, s) := by
  cases s
  simp [load_from_latest_checkpoint, save_train_checkpoint]

/-- C5: if the latest file is absent, `load_from_latest_checkpoint` returns
the sentinel `-1` with every target exactly as passed in; if it is present,
it restores all five bundles from the stored checkpoint and returns its step. -/
theorem load_latest_sentinel_or_full_restore {E D P O1 O2 : Type}
    (store : FileStore E D P O1 O2) (savedir name : String)
    (s : StateBundles E D P O1 O2) :
    (store (latest_path savedir name) = none →
      load_from_latest_checkpoint store savedir name s = (-1, s)) ∧
    (∀ c, store (latest_path savedir name) = some c →
      load_from_latest_checkpoint store savedir name s =
        (c.batch_idx,
         ⟨c.encoder_state_dict, c.decoder_state_dict, c.predictor_state_dict,
          c.optimizer1_state_dict, c.optimizer2_state_dict⟩)) := by
  constructor
  · intro h
    simp [load_from_latest_checkpoint, h]
  · intro c h
    simp [load_from_latest_checkpoint, h]

/-- Witness for C5: an empty filesystem yields the sentinel and no mutation;
a filesystem written by `save_train_checkpoint` yields the saved state. -/
theorem load_latest_sentinel_or_full_restore_witness :
    load_from_latest_checkpoint emptyStore "d" "n" bundles0 = (-1, bundles0) ∧
    load_from_latest_checkpoint (save_train_checkpoint emptyStore "d" "n" 3 bundles1)
      "d" "n" bundles0 = (3, bundles1) :=
  ⟨(load_latest_sentinel_or_full_restore emptyStore "d" "n" bundles0).1 rfl,
   (load_latest_sentinel_or_full_restore
      (save_train_checkpoint emptyStore "d" "n" 3 bundles1) "d" "n" bundles0).2
     ⟨3, 11, 12, 13, 14, 15⟩ (by decide)⟩

/-- C10: the missing-checkpoint sentinel is `-1`, the starting offset is one
plus the loaded value, so a fresh run starts at global step `0` and a run
resumed from a checkpoint saved at step `S` starts at global step `S + 1`. -/
theorem resume_offset_from_sentinel {E D P O1 O2 : Type}
    (store : FileStore E D P O1 O2) (savedir name : String)
    (s s0 : StateBundles E D P O1 O2) (S : ℤ) (D' : ℕ) :
    (store (latest_path savedir name) = none →
      (load_from_latest_checkpoint store savedir name s).1 = -1 ∧
      batch_idx_offset_init store savedir name s = 0 ∧
      global_step (batch_idx_offset_init store savedir name s) D' 0 0 = 0) ∧
    (batch_idx_offset_init (save_train_checkpoint store savedir name S s)
        savedir name s0 = S + 1 ∧
      global_step (S + 1) D' 0 0 = S + 1) := by
  constructor
  · intro h
    refine ⟨?_, ?_, ?_⟩ <;>
      simp [batch_idx_offset_init, load_from_latest_checkpoint, h,
        global_step, pass_offset]
  · constructor
    · simp [batch_idx_offset_init, load_from_latest_checkpoint,
        save_train_checkpoint]
      omega
    · simp [global_step, pass_offset]

/-- Witness for C10 on an empty filesystem and on one saved at step `3`. -/
theorem resume_offset_from_sentinel_witness :
    ((load_from_latest_checkpoint emptyStore "d" "n" bundles0).1 = -1 ∧
      batch_idx_offset_init emptyStore "d" "n" bundles0 = 0 ∧
      global_step (batch_idx_offset_init emptyStore "d" "n" bundles0) 5 0 0 = 0) ∧
    batch_idx_offset_init (save_train_checkpoint emptyStore "d" "n" 3 bundles1)
      "d" "n" bundles0 = 3 + 1 :=
  ⟨(resume_offset_from_sentinel emptyStore "d" "n" bundles0 bundles0 3 5).1 rfl,
   ((resume_offset_from_sentinel emptyStore "d" "n" bundles1 bundles0 3 5).2).1⟩

/-- C6: every step taken in phase 2 leaves the encoder, decoder and
optimizer1 state exactly as before, updates only the predictor and optimizer2
through the optimizer2 update, has loss
`mse(mu_enc, mu_pred) + mse(logvar_enc, logvar_pred)`, and still runs the
encoder forward pass to produce the target mean and log-variance. -/
theorem phase2_frame_and_loss {E D P O1 O2 Img Act Vec : Type}
    (ops : TorchOps E D P O1 O2 Img Act Vec) (N b : ℤ)
    (s : StateBundles E D P O1 O2) (strokes : Img) (actions : Act)
    (h : N ≤ b) :
    (train_step ops N b s strokes actions).bundles.encoder = s.encoder ∧
    (train_step ops N b s strokes actions).bundles.decoder = s.decoder ∧
    (train_step ops N b s strokes actions).bundles.optimizer1 = s.optimizer1 ∧
    (train_step ops N b s strokes actions).bundles.predictor =
      (ops.opt2_step (ops.set_lr s.optimizer2 (optimizer2_lr N b)) s.predictor
        ((ops.encoder_forward s.encoder strokes).2.1,
         (ops.encoder_forward s.encoder strokes).2.2) actions).2 ∧
    (train_step ops N b s strokes actions).bundles.optimizer2 =
      (ops.opt2_step (ops.set_lr s.optimizer2 (optimizer2_lr N b)) s.predictor
        ((ops.encoder_forward s.encoder strokes).2.1,
         (ops.encoder_forward s.encoder strokes).2.2) actions).1 ∧
    (train_step ops N b s strokes actions).loss =
      ops.mse_loss (ops.encoder_forward s.encoder strokes).2.1
        (ops.predictor_forward s.predictor actions).2.1 +
      ops.mse_loss (ops.encoder_forward s.encoder strokes).2.2
        (ops.predictor_forward s.predictor actions).2.2 ∧
    (train_step ops N b s strokes actions).encoder_mu =
      (ops.encoder_forward s.encoder strokes).2.1 ∧
    (train_step ops N b s strokes actions).encoder_log_var =
      (ops.encoder_forward s.encoder strokes).2.2 := by
  have hnl : ¬b < N := not_lt.mpr h
  refine ⟨?_, ?_, ?_, ?_, ?_, ?_, ?_, ?_⟩ <;>
    simp [train_step, if_neg hnl, phase2_step]

/-- Witness for C6 on concrete operations at `N = 10`, `b = 10`. -/
theorem phase2_frame_and_loss_witness :
    (train_step opsNat 10 10 bundles0 7 8).bundles.encoder = 1 ∧
    (train_step opsNat 10 10 bundles0 7 8).bundles.decoder = 2 ∧
    (train_step opsNat 10 10 bundles0 7 8).bundles.optimizer1 = 4 ∧
    (train_step opsNat 10 10 bundles0 7 8).bundles.predictor = 4 ∧
    (train_step opsNat 10 10 bundles0 7 8).bundles.optimizer2 = 7 ∧
    (train_step opsNat 10 10 bundles0 7 8).loss = 96 ∧
    (train_step opsNat 10 10 bundles0 7 8).encoder_mu = 2 ∧
    (train_step opsNat 10 10 bundles0 7 8).encoder_log_var = 21 := by
  have h := phase2_frame_and_loss opsNat 10 10 bundles0 7 8 (by norm_num)
  norm_num [opsNat, bundles0, optimizer2_lr] at h
  exact h

/-- C7: with at least one batch per pass, the global step counter increments
by one inside a pass, continues without reset across pass boundaries (the next
offset is the cumulative count of all prior steps), and is strictly increasing
over the whole run, so no step value repeats. -/
theorem global_step_strictly_increasing (o : ℤ) (D : ℕ) (hD : 1 ≤ D) :
    (∀ p i, global_step o D p (i + 1) = global_step o D p i + 1) ∧
    (∀ p, pass_offset o D (p + 1) = o + ((p : ℤ) + 1) * (D : ℤ)) ∧
    (∀ p, global_step o D (p + 1) 0 = global_step o D p (D - 1) + 1) ∧
    (∀ p i q j, i < D → j < D → (p < q ∨ (p = q ∧ i < j)) →
      global_step o D p i < global_step o D q j) := by
  have hoff : ∀ p : ℕ, pass_offset o D p = o + (p : ℤ) * (D : ℤ) := by
    intro p
    induction p with
    | zero => simp [pass_offset]
    | succ p ih =>
      rw [pass_offset, ih]
      push_cast
      ring
  refine ⟨?_, ?_, ?_, ?_⟩
  · intro p i
    simp only [global_step]
    push_cast
    ring
  · intro p
    rw [hoff]
    push_cast
    ring
  · intro p
    simp only [global_step, hoff]
    have hcast : ((D - 1 : ℕ) : ℤ) = (D : ℤ) - 1 := by
      omega
    rw [hcast]
    push_cast
    ring
  · intro p i q j hi hj hlt
    simp only [global_step, hoff]
    rcases hlt with hpq | ⟨rfl, hij⟩
    · have key : p * D + i < q * D + j := by
        calc p * D + i < p * D + D := by omega
        _ = (p + 1) * D := by ring
        _ ≤ q * D := Nat.mul_le_mul_right D hpq
        _ ≤ q * D + j := Nat.le_add_right _ _
      have key2 : (p : ℤ) * (D : ℤ) + (i : ℤ) < (q : ℤ) * (D : ℤ) + (j : ℤ) := by
        exact_mod_cast key
      linarith
    · have hij2 : (i : ℤ) < (j : ℤ) := by exact_mod_cast hij
      linarith

/-- Witness for C7 at `offset = 2`, `D = 5`: consecutive steps inside a pass,
the pass-boundary offset, and strict increase across a boundary. -/
theorem global_step_strictly_increasing_witness :
    global_step 2 5 3 2 = global_step 2 5 3 1 + 1 ∧
    pass_offset 2 5 1 = 2 + (0 + 1) * 5 ∧
    global_step 2 5 0 4 < global_step 2 5 1 0 :=
  ⟨(global_step_strictly_increasing 2 5 (by norm_num)).1 3 1,
   (global_step_strictly_increasing 2 5 (by norm_num)).2.1 0,
   (global_step_strictly_increasing 2 5 (by norm_num)).2.2.2 0 4 1 0
     (by norm_num) (by norm_num) (Or.inl (by norm_num))⟩

/-- C9: the inference wrapper composes predictor and decoder: in the
stochastic configuration it decodes the sampled latent, in the deterministic
configuration it decodes the predicted mean, and the deterministic output
does not depend on the injected sampling noise. -/
theorem inference_forward_composition {Img : Type} (decoder : List ℝ → Img)
    (net : List ℝ → List ℝ × List ℝ) (eps eps1 eps2 x : List ℝ) :
    vae_neural_painter_forward decoder net true eps x =
      decoder (vae_predictor_forward net eps x).1 ∧
    vae_neural_painter_forward decoder net false eps x =
      decoder (vae_predictor_forward net eps x).2.1 ∧
    vae_neural_painter_forward decoder net false eps1 x =
      vae_neural_painter_forward decoder net false eps2 x :=
  ⟨rfl, rfl, rfl⟩

/-- Helper: some scalar is written on every step, whichever phase runs. -/
theorem step_events_scalar_every_step (N tb lg sv : ℤ) (mp : Bool) (b : ℤ) :
    ∃ tag, Event.scalar tag ∈ step_events N tb lg sv mp b := by
  by_cases h : b < N
  · exact ⟨"loss", by simp [step_events, h]⟩
  · exact ⟨"loss2", by simp [step_events, h]⟩

/-- Helper: the input-image sample is written exactly on the tensorboard
cadence. -/
theorem step_events_images_iff (N tb lg sv : ℤ) (mp : Bool) (b : ℤ) :
    Event.images "img_in" ∈ step_events N tb lg sv mp b ↔ b % tb = 0 := by
  by_cases h : b < N <;> by_cases htb : b % tb = 0 <;>
    by_cases hlg : b % lg = 0 <;> by_cases hsv : b % sv = 0 <;> cases mp <;>
      simp [step_events, h, htb, hlg, hsv]

/-- Helper: the progress line is printed exactly on the log cadence. -/
theorem step_events_progress_iff (N tb lg sv : ℤ) (mp : Bool) (b : ℤ) :
    Event.progressLine ∈ step_events N tb lg sv mp b ↔ b % lg = 0 := by
  by_cases h : b < N <;> by_cases htb : b % tb = 0 <;>
    by_cases hlg : b % lg = 0 <;> by_cases hsv : b % sv = 0 <;> cases mp <;>
      simp [step_events, h, htb, hlg, hsv]

/-- Helper: the checkpoint is saved exactly on the save cadence. -/
theorem step_events_save_iff (N tb lg sv : ℤ) (mp : Bool) (b : ℤ) :
    Event.checkpointSave ∈ step_events N tb lg sv mp b ↔ b % sv = 0 := by
  by_cases h : b < N <;> by_cases htb : b % tb = 0 <;>
    by_cases hlg : b % lg = 0 <;> by_cases hsv : b % sv = 0 <;> cases mp <;>
      simp [step_events, h, htb, hlg, hsv]

/-- C8: each cadence hook fires exactly when the global step is a multiple of
its interval — images on the tensorboard cadence, progress lines on the log
cadence, checkpoint saves on the save cadence — including step 0, while some
scalar metric is written on every step in both phases. -/
theorem cadence_hooks_fire_on_multiples (N tb lg sv : ℤ) (mp : Bool) (b : ℤ) :
    (∃ tag, Event.scalar tag ∈ step_events N tb lg sv mp b) ∧
    (Event.images "img_in" ∈ step_events N tb lg sv mp b ↔ b % tb = 0) ∧
    (Event.progressLine ∈ step_events N tb lg sv mp b ↔ b % lg = 0) ∧
    (Event.checkpointSave ∈ step_events N tb lg sv mp b ↔ b % sv = 0) ∧
    Event.checkpointSave ∈ step_events N tb lg sv mp 0 :=
  ⟨step_events_scalar_every_step N tb lg sv mp b,
   step_events_images_iff N tb lg sv mp b,
   step_events_progress_iff N tb lg sv mp b,
   step_events_save_iff N tb lg sv mp b,
   (step_events_save_iff N tb lg sv mp 0).mpr (Int.zero_emod sv)⟩

/-- Helper: the sum of a list with all elements equal to `c`. -/
theorem list_sum_eq_of_forall_eq {l : List ℝ} {c : ℝ} (h : ∀ x ∈ l, x = c) :
    l.sum = (l.length : ℝ) * c := by
  induction l with
  | nil => simp
  | cons a t ih =>
    simp only [List.sum_cons, List.length_cons]
    have ha : a = c := h a (by simp)
    have ht : ∀ x ∈ t, x = c := fun x hx => h x (by simp [hx])
    rw [ha, ih ht]
    push_cast
    ring

/-- Helper: a lower bound on all elements bounds the sum from below. -/
theorem list_length_mul_le_sum {l : List ℝ} {c : ℝ} (h : ∀ x ∈ l, c ≤ x) :
    (l.length : ℝ) * c ≤ l.sum := by
  induction l with
  | nil => simp
  | cons a t ih =>
    simp only [List.sum_cons, List.length_cons]
    have ha : c ≤ a := h a (by simp)
    have ht : ∀ x ∈ t, c ≤ x := fun x hx => h x (by simp [hx])
    have hs := ih ht
    push_cast
    nlinarith [hs, ha]

/-- Helper: every element of a `zipWith` comes from a pair of the two lists. -/
theorem exists_pair_of_mem_zipWith {α β γ : Type} {f : α → β → γ} :
    ∀ {A : List α} {B : List β} {x : γ}, x ∈ List.zipWith f A B →
      ∃ a, a ∈ A ∧ ∃ b, b ∈ B ∧ x = f a b := by
  intro A
  induction A with
  | nil =>
    intro B x hx
    simp at hx
  | cons a A ih =>
    intro B x hx
    cases B with
    | nil => simp at hx
    | cons b B =>
      rw [List.zipWith_cons_cons] at hx
      rcases List.mem_cons.mp hx with rfl | hx
      · exact ⟨a, by simp, b, by simp, rfl⟩
      · rcases ih hx with ⟨a1, ha1, b1, hb1, rfl⟩
        exact ⟨a1, by simp [ha1], b1, by simp [hb1], rfl⟩

/-- Helper: the summand of line 136 vanishes termwise on zero rows. -/
theorem kl_summand_zeros :
    ∀ (r1 r2 : List ℝ), (∀ x ∈ r1, x = 0) → (∀ x ∈ r2, x = 0) →
      (List.zipWith (fun m l => 1 + l - m ^ 2 - Real.exp l) r1 r2).sum = 0 := by
  intro r1
  induction r1 with
  | nil =>
    intro r2 _ _
    simp
  | cons a t ih =>
    intro r2 h1 h2
    cases r2 with
    | nil => simp
    | cons b s =>
      rw [List.zipWith_cons_cons, List.sum_cons]
      have ha : a = 0 := h1 a (by simp)
      have hb : b = 0 := h2 b (by simp)
      rw [ha, hb,
        ih s (fun x hx => h1 x (by simp [hx])) (fun x hx => h2 x (by simp [hx]))]
      simp [Real.exp_zero]

/-- Helper: the per-sample divergence of a zero mean row and a zero
log-variance row is zero. -/
theorem kl_per_sample_zeros {r1 r2 : List ℝ} (h1 : ∀ x ∈ r1, x = 0)
    (h2 : ∀ x ∈ r2, x = 0) : kl_per_sample r1 r2 = 0 := by
  unfold kl_per_sample
  rw [kl_summand_zeros r1 r2 h1 h2]
  ring

/-- C2: `kl_loss_function` floors every per-sample closed-form divergence at
`tolerance × Z` before averaging, so the returned scalar is at least
`tolerance × Z` (hence non-negative for non-negative tolerance), and is
exactly `tolerance × Z` when every mean and log-variance entry is zero and
`tolerance × Z` exceeds the raw divergence (which is then zero). -/
theorem kl_loss_floor (mu logvar : List (List ℝ)) (t : ℝ) (Z : ℕ)
    (hne : mu ≠ []) (hlen : mu.length = logvar.length) :
    t * (Z : ℝ) ≤ kl_loss_function mu logvar t Z ∧
    (0 ≤ t → 0 ≤ kl_loss_function mu logvar t Z) ∧
    ((∀ r ∈ mu, ∀ x ∈ r, x = 0) → (∀ r ∈ logvar, ∀ x ∈ r, x = 0) →
      0 < t * (Z : ℝ) → kl_loss_function mu logvar t Z = t * (Z : ℝ)) := by
  have hlength :
      (List.zipWith (fun m l => max (kl_per_sample m l) (t * (Z : ℝ)))
        mu logvar).length = mu.length := by
    rw [List.length_zipWith, hlen, min_self]
  have hposR :
      (0 : ℝ) < ((List.zipWith (fun m l => max (kl_per_sample m l) (t * (Z : ℝ)))
        mu logvar).length : ℝ) := by
    rw [hlength]
    exact_mod_cast List.length_pos.mpr hne
  have hmem :
      ∀ x ∈ List.zipWith (fun m l => max (kl_per_sample m l) (t * (Z : ℝ)))
        mu logvar, t * (Z : ℝ) ≤ x := by
    intro x hx
    rcases exists_pair_of_mem_zipWith hx with ⟨a, _, b, _, rfl⟩
    exact le_max_right _ _
  have hmean : t * (Z : ℝ) ≤ kl_loss_function mu logvar t Z := by
    show t * (Z : ℝ) ≤
      (List.zipWith (fun m l => max (kl_per_sample m l) (t * (Z : ℝ)))
        mu logvar).sum /
      ((List.zipWith (fun m l => max (kl_per_sample m l) (t * (Z : ℝ)))
        mu logvar).length : ℝ)
    rw [le_div_iff₀ hposR, mul_comm]
    exact list_length_mul_le_sum hmem
  refine ⟨hmean, ?_, ?_⟩
  · intro ht
    have hz : (0 : ℝ) ≤ t * (Z : ℝ) := by positivity
    linarith
  · intro h1 h2 hpos
    have hconst :
        ∀ x ∈ List.zipWith (fun m l => max (kl_per_sample m l) (t * (Z : ℝ)))
          mu logvar, x = t * (Z : ℝ) := by
      intro x hx
      rcases exists_pair_of_mem_zipWith hx with ⟨a, ha, b, hb, rfl⟩
      rw [kl_per_sample_zeros (h1 a ha) (h2 b hb)]
      exact max_eq_right (le_of_lt hpos)
    show (List.zipWith (fun m l => max (kl_per_sample m l) (t * (Z : ℝ)))
        mu logvar).sum /
      ((List.zipWith (fun m l => max (kl_per_sample m l) (t * (Z : ℝ)))
        mu logvar).length : ℝ) = t * (Z : ℝ)
    rw [list_sum_eq_of_forall_eq hconst]
    exact mul_div_cancel_left₀ _ (ne_of_gt hposR)

/-- Witness for C2 at `mu = [[0]]`, `logvar = [[0]]`, tolerance `1`, `Z = 1`:
the floor engages and the loss equals `tolerance × Z` exactly. -/
theorem kl_loss_floor_witness :
    (1 : ℝ) * ((1 : ℕ) : ℝ) ≤ kl_loss_function [[0]] [[0]] 1 1 ∧
    kl_loss_function [[0]] [[0]] 1 1 = 1 * ((1 : ℕ) : ℝ) :=
  ⟨(kl_loss_floor [[0]] [[0]] 1 1 (by simp) rfl).1,
   (kl_loss_floor [[0]] [[0]] 1 1 (by simp) rfl).2.2 (by simp) (by simp)
     (by norm_num)⟩

end VAEPainter
